import Mathlib

/-!
# Verification of the ArchfolioAI core

Shallow embedding of the two core parts of the repository:

* the layout schema validation performed by the zod schemas in
  `src/ai/flows/suggest-layout.ts` (`TextBoxSchema`, `LayoutComponentSchema`,
  `SuggestLayoutOutputSchema`), modelled as executable parse functions over an
  untrusted JSON-like payload (JS numbers are modelled as rationals);
* the asset ingestion pipeline and submit handler of
  `src/components/portfolio-generator.tsx` (`handleImageUpload`, `onSubmit`,
  and the dynamic layout renderer), modelled as state transformers over the
  `PortfolioData` state.
-/

namespace Archfolio

/-- Untrusted JSON-like structured value, the shape of the generative model's
raw response. JS numbers are rationals. -/
inductive Json where
  | null : Json
  | bool (b : Bool) : Json
  | num (q : ℚ) : Json
  | str (s : String) : Json
  | arr (elems : List Json) : Json
  | obj (fields : List (String × Json)) : Json

/-- Property lookup on a JS object: first binding wins, `none` when the value
is not an object or the key is absent (zod treats both as a missing field). -/
def Json.getField : Json → String → Option Json
  | .obj fields, key => List.lookup key fields
  | _, _ => none

/-- Parsed text box, from `TextBoxSchema = z.object({title: z.string(), content: z.string()})`. -/
structure TextBox where
  title : String
  content : String
  deriving DecidableEq, Repr

/-- Parsed grid position, from `gridPosition: z.object({colSpan: z.number(), rowSpan: z.number()})`. -/
structure GridPosition where
  colSpan : ℚ
  rowSpan : ℚ
  deriving DecidableEq, Repr

/-- Parsed component content, from
`content: z.union([z.object({imageIndex: z.number()}), TextBoxSchema])`. -/
inductive ComponentContent where
  | image (imageIndex : ℚ) : ComponentContent
  | textBox (tb : TextBox) : ComponentContent
  deriving DecidableEq, Repr

/-- Parsed layout component, from `LayoutComponentSchema`. -/
structure LayoutComponent where
  type : String
  gridPosition : GridPosition
  content : ComponentContent
  deriving DecidableEq, Repr

/-- Parsed inner layout object, from
`layout: z.object({gridCols: z.number().min(1).max(12), components: z.array(LayoutComponentSchema)})`. -/
structure Layout where
  gridCols : ℚ
  components : List LayoutComponent
  deriving DecidableEq, Repr

/-- Parsed full structured output, from `SuggestLayoutOutputSchema`. -/
structure SuggestLayoutOutput where
  layoutDescription : String
  layout : Layout
  deriving DecidableEq, Repr

/-- `z.string()`: succeeds exactly on a JSON string. -/
def parseString : Json → Option String
  | .str s => some s
  | _ => none

/-- `z.number()`: succeeds exactly on a JSON number, with no integrality or
range requirement. -/
def parseNumber : Json → Option ℚ
  | .num q => some q
  | _ => none

/-- `z.enum(["image", "text"])` for the component `type` field. -/
def parseComponentType : Json → Option String
  | .str s => if s = "image" ∨ s = "text" then some s else none
  | _ => none

/-- `z.number().min(1).max(12)` for `gridCols`: a number within `[1, 12]`;
zod's `min`/`max` are inclusive bounds and impose no integrality. -/
def parseGridCols : Json → Option ℚ
  | .num q => if 1 ≤ q ∧ q ≤ 12 then some q else none
  | _ => none

/-- Parse of `TextBoxSchema`: both fields present and strings. -/
def parseTextBox (j : Json) : Option TextBox := do
  let t ← parseString (← j.getField "title")
  let c ← parseString (← j.getField "content")
  pure { title := t, content := c }

/-- Parse of the image branch `z.object({imageIndex: z.number()})` of the
content union. -/
def parseImageContent (j : Json) : Option ComponentContent := do
  let q ← parseNumber (← j.getField "imageIndex")
  pure (ComponentContent.image q)

/-- Parse of the content union: zod tries the union members in order, the
image object first, then `TextBoxSchema`. -/
def parseContent (j : Json) : Option ComponentContent :=
  match parseImageContent j with
  | some c => some c
  | none => (parseTextBox j).map ComponentContent.textBox

/-- Parse of the `gridPosition` object. -/
def parseGridPosition (j : Json) : Option GridPosition := do
  let c ← parseNumber (← j.getField "colSpan")
  let r ← parseNumber (← j.getField "rowSpan")
  pure { colSpan := c, rowSpan := r }

/-- Parse of `LayoutComponentSchema`. -/
def parseLayoutComponent (j : Json) : Option LayoutComponent := do
  let t ← parseComponentType (← j.getField "type")
  let gp ← parseGridPosition (← j.getField "gridPosition")
  let ct ← parseContent (← j.getField "content")
  pure { type := t, gridPosition := gp, content := ct }

/-- Elementwise parse of the components array: every element must parse, the
results kept in order (zod's array parse). -/
def parseComponentList : List Json → Option (List LayoutComponent)
  | [] => some []
  | j :: rest => do
    let c ← parseLayoutComponent j
    let cs ← parseComponentList rest
    pure (c :: cs)

/-- Parse of `z.array(LayoutComponentSchema)`. -/
def parseComponents : Json → Option (List LayoutComponent)
  | .arr xs => parseComponentList xs
  | _ => none

/-- Parse of the inner `layout` object of `SuggestLayoutOutputSchema`. -/
def parseLayout (j : Json) : Option Layout := do
  let gc ← parseGridCols (← j.getField "gridCols")
  let cs ← parseComponents (← j.getField "components")
  pure { gridCols := gc, components := cs }

/-- Parse of `SuggestLayoutOutputSchema`: the validation genkit applies to the
model's raw structured response before it is returned to the caller. -/
def parseSuggestLayoutOutput (j : Json) : Option SuggestLayoutOutput := do
  let d ← parseString (← j.getField "layoutDescription")
  let l ← parseLayout (← j.getField "layout")
  pure { layoutDescription := d, layout := l }

/-- One entry of `portfolio.images`, the shape
`{ url: string; uploadProgress: number | null }` from `PortfolioData`. -/
structure ImageRecord where
  url : String
  uploadProgress : Option ℚ
  deriving DecidableEq, Repr

/-- Embeds the JS check `url.startsWith("blob:")` used by `handleImageUpload`
to discriminate in-flight local previews from durable download URLs: prefix
test on the character sequence. -/
def isBlobUrl (u : String) : Bool := List.isPrefixOf "blob:".data u.data

/-- A record is durable (in the spec's sense) when its url is no longer the
transient local `blob:` preview but a download URL from the store. -/
def isDurable (img : ImageRecord) : Bool := !(isBlobUrl img.url)

/-- The form data of `projectSchema` (`ProjectFormData`); optional fields are
`Option`, the coerced `year` is a JS number. -/
structure ProjectFormData where
  title : String
  description : String
  client : Option String
  location : Option String
  year : Option ℚ
  area : Option String
  deriving DecidableEq, Repr

/-- The component state `PortfolioData`: project fields, the ordered image
record list, and the current layout (or none). -/
structure PortfolioData where
  title : String
  description : String
  client : Option String
  location : Option String
  year : Option ℚ
  area : Option String
  images : List ImageRecord
  layout : Option SuggestLayoutOutput
  deriving DecidableEq, Repr

/-- The initial `useState` value of `portfolio`. -/
def initialPortfolio : PortfolioData :=
  { title := ""
    description := ""
    client := none
    location := none
    year := none
    area := none
    images := []
    layout := none }

/-- Number of durable records in the session. -/
def durableCount (st : PortfolioData) : Nat :=
  (st.images.filter isDurable).length

/-- First `setPortfolio` of `handleImageUpload` for one enqueued file: append
a record holding the local object-URL preview and progress 0. -/
def handleImageUploadEnqueue (st : PortfolioData) (previewUrl : String) : PortfolioData :=
  { st with images := st.images ++ [{ url := previewUrl, uploadProgress := some 0 }] }

/-- Success `setPortfolio` of `handleImageUpload`: the completion callback
rewrites every record whose url starts with `blob:` to the download URL —
reconciliation keyed on the transient preview marker, not on the identifier
assigned at enqueue time. -/
def handleImageUploadSuccess (st : PortfolioData) (downloadURL : String) : PortfolioData :=
  { st with images := st.images.map fun img =>
      if isBlobUrl img.url then { url := downloadURL, uploadProgress := some 100 } else img }

/-- Failure `setPortfolio` of `handleImageUpload`: the catch handler removes
every record whose url starts with `blob:`. -/
def handleImageUploadFailure (st : PortfolioData) : PortfolioData :=
  { st with images := st.images.filter fun img => !(isBlobUrl img.url) }

/-- The request `onSubmit` passes to the external `suggestLayout` collaborator. -/
structure GenRequest where
  projectDetails : String
  imageUrls : List String
  deriving DecidableEq, Repr

/-- JS template fallback `x || 'N/A'` for the optional string fields. -/
def orNA : Option String → String
  | some s => s
  | none => "N/A"

/-- The `projectDetails` template string built by `onSubmit` (template-literal
whitespace elided; the field order and N/A fallbacks are the source's). -/
def buildProjectDetails (d : ProjectFormData) : String :=
  "Project Title: " ++ d.title ++
  " Description: " ++ d.description ++
  " Client: " ++ orNA d.client ++
  " Location: " ++ orNA d.location ++
  " Year: " ++ (match d.year with | some y => toString y | none => "N/A") ++
  " Area: " ++ orNA d.area

/-- The spread `{...prev, ...data}` of the first `setPortfolio` in `onSubmit`. -/
def mergeFormData (st : PortfolioData) (d : ProjectFormData) : PortfolioData :=
  { st with
    title := d.title
    description := d.description
    client := d.client
    location := d.location
    year := d.year
    area := d.area }

/-- `onSubmit` up to (and excluding) the `await suggestLayout(...)` suspension
point: first `setPortfolio({...prev, ...data, layout: null})`, then the
`portfolio.images.length === 0` early return (no request), otherwise the
request built from `portfolio.images.map(img => img.url)`. Returns the state
observable while generation is in flight, and the request sent (or none). -/
def onSubmitStep (st : PortfolioData) (d : ProjectFormData) : PortfolioData × Option GenRequest :=
  let cleared := { mergeFormData st d with layout := none }
  if st.images.length = 0 then
    (cleared, none)
  else
    (cleared, some { projectDetails := buildProjectDetails d
                     imageUrls := st.images.map fun img => img.url })

/-- The `setPortfolio` applied after `await suggestLayout` resolves. -/
def applyLayoutResult (st : PortfolioData) (result : SuggestLayoutOutput) : PortfolioData :=
  { st with layout := some result }

/-- Outcome of rendering one layout component in the dynamic layout area. -/
inductive RenderedComponent where
  | imageEl (src : String) : RenderedComponent
  | textEl (title content : String) : RenderedComponent
  | placeholder : RenderedComponent
  deriving DecidableEq, Repr

/-- JS array indexing `portfolio.images[content.imageIndex]` with a JS-number
index: yields an element only for an integral, in-bounds, non-negative index;
everything else is `undefined` (`none`). -/
def jsArrayGet (xs : List ImageRecord) (q : ℚ) : Option ImageRecord :=
  if q.den = 1 ∧ 0 ≤ q.num then xs.get? q.num.toNat else none

/-- The JS `'imageIndex' in content` membership test on the parsed union. -/
def hasImageIndex : ComponentContent → Bool
  | .image _ => true
  | .textBox _ => false

/-- The JS `'title' in content` membership test on the parsed union. -/
def hasTitle : ComponentContent → Bool
  | .image _ => false
  | .textBox _ => true

/-- The component rendering logic of the dynamic layout area: an image
component renders the looked-up record's url or a skeleton placeholder when
the lookup is `undefined`; a text component renders its title and content; the
fallthrough is a skeleton placeholder. -/
def renderComponent (images : List ImageRecord) (c : LayoutComponent) : RenderedComponent :=
  if c.type = "image" ∧ hasImageIndex c.content = true then
    match c.content with
    | .image idx =>
      match jsArrayGet images idx with
      | some img => .imageEl img.url
      | none => .placeholder
    | .textBox _ => .placeholder
  else if c.type = "text" ∧ hasTitle c.content = true then
    match c.content with
    | .textBox tb => .textEl tb.title tb.content
    | .image _ => .placeholder
  else
    .placeholder

/-! ## Concrete inputs used by the claims -/

/-- Session after enqueueing asset A then asset B: both records hold their
local object-URL previews and both uploads are in flight. -/
def stC1 : PortfolioData :=
  handleImageUploadEnqueue (handleImageUploadEnqueue initialPortfolio "blob:preview-a") "blob:preview-b"

/-- Session with one durable record C and two in-flight records A and B. -/
def stC4 : PortfolioData :=
  { initialPortfolio with images :=
      [{ url := "https://store/upload-c", uploadProgress := some 100 },
       { url := "blob:preview-a4", uploadProgress := some 0 },
       { url := "blob:preview-b4", uploadProgress := some 0 }] }

/-- Session with a single record whose upload is still in flight: zero
durable assets. -/
def stC5 : PortfolioData :=
  { initialPortfolio with images := [{ url := "blob:preview-x", uploadProgress := some 0 }] }

/-- Form data used for the C5 scenario. -/
def formC5 : ProjectFormData :=
  { title := "Lake House"
    description := "A modern lake house with glass walls"
    client := none
    location := none
    year := none
    area := none }

/-- Session with one durable record and one record still in flight. -/
def stC6 : PortfolioData :=
  { initialPortfolio with images :=
      [{ url := "https://store/upload-one", uploadProgress := some 100 },
       { url := "blob:preview-two", uploadProgress := some 0 }] }

/-- Form data used for the C6 scenario. -/
def formC6 : ProjectFormData :=
  { title := "Hillside Pavilion"
    description := "A timber pavilion overlooking the valley"
    client := none
    location := none
    year := none
    area := none }

/-- An image component referencing index 3. -/
def cW10 : LayoutComponent :=
  { type := "image"
    gridPosition := { colSpan := 2, rowSpan := 1 }
    content := ComponentContent.image 3 }

/-- Raw candidate with a single image component whose `imageIndex` is the
given number; `gridCols` is 2 and the spans are 1. -/
def mkImageIndexCand (q : ℚ) : Json :=
  .obj [("layoutDescription", .str "hero image layout"),
        ("layout", .obj
          [("gridCols", .num 2),
           ("components", .arr
             [.obj [("type", .str "image"),
                    ("gridPosition", .obj [("colSpan", .num 1), ("rowSpan", .num 1)]),
                    ("content", .obj [("imageIndex", .num q)])]])])]

/-- The output the schema produces from `mkImageIndexCand q`. -/
def mkImageIndexOut (q : ℚ) : SuggestLayoutOutput :=
  { layoutDescription := "hero image layout"
    layout :=
      { gridCols := 2
        components :=
          [{ type := "image"
             gridPosition := { colSpan := 1, rowSpan := 1 }
             content := ComponentContent.image q }] } }

/-- The raw candidate of the spec's span scenario: `gridCols` 4, a single
image component with `colSpan` 5 and `rowSpan` 1 referencing image 0. -/
def candC3 : Json :=
  .obj [("gridCols", .num 4),
        ("components", .arr
          [.obj [("type", .str "image"),
                 ("gridPosition", .obj [("colSpan", .num 5), ("rowSpan", .num 1)]),
                 ("content", .obj [("imageIndex", .num 0)])]])]

/-- The Layout the schema produces from `candC3`. -/
def outC3 : Layout :=
  { gridCols := 4
    components :=
      [{ type := "image"
         gridPosition := { colSpan := 5, rowSpan := 1 }
         content := ComponentContent.image 0 }] }

/-- Raw layout candidate with `gridCols` 4 and one image component carrying
arbitrary spans. -/
def mkSpanCand (cs rs : ℚ) : Json :=
  .obj [("gridCols", .num 4),
        ("components", .arr
          [.obj [("type", .str "image"),
                 ("gridPosition", .obj [("colSpan", .num cs), ("rowSpan", .num rs)]),
                 ("content", .obj [("imageIndex", .num 0)])]])]

/-- The Layout the schema produces from `mkSpanCand cs rs`. -/
def mkSpanOut (cs rs : ℚ) : Layout :=
  { gridCols := 4
    components :=
      [{ type := "image"
         gridPosition := { colSpan := cs, rowSpan := rs }
         content := ComponentContent.image 0 }] }

/-- Raw layout candidate with the given `gridCols` value and an empty
components array. -/
def mkGridColsCand (q : ℚ) : Json :=
  .obj [("gridCols", .num q), ("components", .arr [])]

/-- Raw layout candidate with no `gridCols` field at all. -/
def candC7missing : Json :=
  .obj [("components", .arr [])]

/-- Raw candidate with a single text component carrying the given title and
content strings. -/
def mkTextCand (t c : String) : Json :=
  .obj [("layoutDescription", .str "text section layout"),
        ("layout", .obj
          [("gridCols", .num 3),
           ("components", .arr
             [.obj [("type", .str "text"),
                    ("gridPosition", .obj [("colSpan", .num 1), ("rowSpan", .num 2)]),
                    ("content", .obj [("title", .str t), ("content", .str c)])]])])]

/-- The output the schema produces from `mkTextCand t c`. -/
def mkTextOut (t c : String) : SuggestLayoutOutput :=
  { layoutDescription := "text section layout"
    layout :=
      { gridCols := 3
        components :=
          [{ type := "text"
             gridPosition := { colSpan := 1, rowSpan := 2 }
             content := ComponentContent.textBox { title := t, content := c } }] } }

/-! ## Claim theorems -/

/-- Claim C1: enqueue A then B with both uploads in flight; B's upload
completes first. The success callback reconciles by the transient `blob:`
marker, so it rewrites record A as well: afterwards both records hold B's
download URL, and A's url and progress are not what they were at enqueue
time. This contradicts the claim that only the record with B's identifier is
updated and that A's record is unchanged by B's completion callback. -/
theorem C1_success_callback_overwrites_sibling :
    stC1.images = [{ url := "blob:preview-a", uploadProgress := some 0 },
                   { url := "blob:preview-b", uploadProgress := some 0 }] ∧
    (handleImageUploadSuccess stC1 "https://store/upload-b").images =
      [{ url := "https://store/upload-b", uploadProgress := some 100 },
       { url := "https://store/upload-b", uploadProgress := some 100 }] := by
  decide

/-- Claim C2 counterexample: a candidate whose only image component has
`imageIndex` 5 — out of range for the scenario's single uploaded asset
(assetCount 1) — is accepted by the schema validation and produces a Layout,
so no `ImageIndexOutOfRange` rejection happens. -/
theorem C2_counterexample_out_of_range_index_accepted :
    parseSuggestLayoutOutput (mkImageIndexCand 5) = some (mkImageIndexOut 5) := by
  decide

/-- Claim C2 (amended): the schema checks only that `imageIndex` is a number;
every numeric index — non-integral, negative, or at least assetCount — is
accepted, and the validation never sees assetCount at all. -/
theorem C2_amended_any_numeric_index_accepted (q : ℚ) :
    parseSuggestLayoutOutput (mkImageIndexCand q) = some (mkImageIndexOut q) := rfl

/-- Claim C3 counterexample: the scenario candidate with `colSpan` 5 against
`gridCols` 4 is accepted by the schema validation (no `InvalidSpan`
rejection), yielding an accepted layout whose component violates
`colSpan ≤ gridCols` since 5 > 4. -/
theorem C3_counterexample_span_scenario_accepted :
    parseLayout candC3 = some outC3 ∧ ¬ ((5 : ℚ) ≤ (4 : ℚ)) := by
  decide

/-- Claim C3 (amended): the schema imposes no span constraint at all — any
numeric `colSpan` and `rowSpan` (zero, negative, or exceeding `gridCols`) are
accepted, so accepted layouts do not satisfy the claimed invariants. -/
theorem C3_amended_spans_unchecked (cs rs : ℚ) :
    parseLayout (mkSpanCand cs rs) = some (mkSpanOut cs rs) := rfl

/-- Claim C4: with records C (durable), A (in flight), B (in flight), B's
upload fails. The catch handler filters out every record whose url starts
with `blob:`, so A's record is deleted together with B's even though A's
upload did not fail — only the durable record survives. This contradicts the
claim that exactly the failed asset's record is removed and every other
record is kept untouched. -/
theorem C4_failure_callback_removes_all_in_flight :
    (handleImageUploadFailure stC4).images =
      [{ url := "https://store/upload-c", uploadProgress := some 100 }] := by
  decide

/-- Claim C5 counterexample: a session whose only record is still uploading
has zero durable assets, yet submit does not fail fast — it issues a
generation request, because the guard checks the total record count, not the
durable count. -/
theorem C5_counterexample_zero_durable_still_calls :
    durableCount stC5 = 0 ∧ ((onSubmitStep stC5 formC5).2).isSome = true := by
  decide

/-- Claim C5 (amended): submit skips the call to the generation collaborator
exactly when the image record list is empty; the guard is the total record
count, so in-flight records count toward it. -/
theorem C5_amended_no_call_iff_images_empty (st : PortfolioData) (d : ProjectFormData) :
    (onSubmitStep st d).2 = none ↔ st.images = [] := by
  by_cases h : st.images.length = 0
  · simp [onSubmitStep, h, List.length_eq_zero.mp h]
  · have hne : st.images ≠ [] := fun hh => h (by simp [hh])
    simp [onSubmitStep, h, hne]

/-- Claim C6 counterexample: with one durable record and one record still
uploading, the URL list sent to the generation collaborator contains the
non-durable record's local `blob:` preview reference, which the claim says is
never included. -/
theorem C6_counterexample_in_flight_url_sent :
    (((onSubmitStep stC6 formC6).2).map fun r => r.imageUrls) =
      some ["https://store/upload-one", "blob:preview-two"] ∧
    isDurable { url := "blob:preview-two", uploadProgress := some 0 } = false := by
  decide

/-- Claim C6 (amended): whenever a request is issued, its URL list is the
`url` field of every record in display order — durable download URLs and
in-flight local previews alike; no durability filter is applied. -/
theorem C6_amended_all_record_urls_sent (st : PortfolioData) (d : ProjectFormData)
    (h : st.images ≠ []) :
    (onSubmitStep st d).2 = some { projectDetails := buildProjectDetails d
                                   imageUrls := st.images.map fun img => img.url } := by
  have hl : ¬ st.images.length = 0 := fun hh => h (List.length_eq_zero.mp hh)
  simp [onSubmitStep, hl]

/-- Witness for the amended C6 theorem at the concrete C6 session. -/
theorem C6_amended_witness :
    stC6.images ≠ [] ∧
    (onSubmitStep stC6 formC6).2 =
      some { projectDetails := buildProjectDetails formC6
             imageUrls := stC6.images.map fun img => img.url } :=
  ⟨by decide, C6_amended_all_record_urls_sent stC6 formC6 (by decide)⟩

/-- Claim C7 counterexample: `gridCols` 5/2 is not an integer, yet the
candidate is accepted and produces a Layout — zod's `min`/`max` bound the
number but impose no integrality. -/
theorem C7_counterexample_non_integer_grid_cols_accepted :
    parseLayout (mkGridColsCand (5 / 2)) = some { gridCols := 5 / 2, components := [] } := by
  have h1 : Json.getField (mkGridColsCand (5 / 2)) "gridCols" = some (.num (5 / 2)) := rfl
  have h2 : Json.getField (mkGridColsCand (5 / 2)) "components" = some (.arr []) := rfl
  simp only [parseLayout, h1, h2]
  norm_num [parseGridCols, parseComponents, parseComponentList]

/-- Claim C7 (amended): a candidate whose `gridCols` is missing or a number
outside `[1, 12]` is rejected and produces no Layout; integrality is not
required. -/
theorem C7_amended_rejects_missing_or_out_of_range (q : ℚ) (h : q < 1 ∨ 12 < q) :
    parseLayout (mkGridColsCand q) = none ∧ parseLayout candC7missing = none := by
  constructor
  · have hno : ¬ (1 ≤ q ∧ q ≤ 12) := by
      rcases h with h | h
      · exact fun hc => absurd hc.1 (not_le.mpr h)
      · exact fun hc => absurd hc.2 (not_le.mpr h)
    simp [parseLayout, parseGridCols, Json.getField, List.lookup, mkGridColsCand, hno]
  · decide

/-- Witness for the amended C7 theorem at `gridCols` 13. -/
theorem C7_amended_witness :
    ((13 : ℚ) < 1 ∨ (12 : ℚ) < 13) ∧
    (parseLayout (mkGridColsCand 13) = none ∧ parseLayout candC7missing = none) :=
  ⟨Or.inr (by norm_num),
   C7_amended_rejects_missing_or_out_of_range 13 (Or.inr (by norm_num))⟩

/-- Claim C8: every invocation of submit clears the session's layout in the
very first state update, before the generation request is awaited (the state
returned by `onSubmitStep` is the one observable while generation is in
flight, and it has no layout), in both the early-return and the request
branches. -/
theorem C8_layout_cleared_before_await (st : PortfolioData) (d : ProjectFormData) :
    (onSubmitStep st d).1.layout = none := by
  by_cases h : st.images.length = 0 <;> simp [onSubmitStep, h]

/-- Claim C9 counterexample: a candidate whose text component has an empty
title and empty content is accepted by the schema validation and produces a
Layout — there is no `InvalidTextContent` rejection. -/
theorem C9_counterexample_empty_text_accepted :
    parseSuggestLayoutOutput (mkTextCand "" "") = some (mkTextOut "" "") := by
  decide

/-- Claim C9 (amended): a text component's title and content need only be
strings; every pair of strings, empty ones included, is accepted. -/
theorem C9_amended_any_strings_accepted (t c : String) :
    parseSuggestLayoutOutput (mkTextCand t c) = some (mkTextOut t c) := rfl

/-- Claim C10: the renderer is total on image components — whenever the
JS index lookup into the asset records yields `undefined` (negative,
non-integral, or out-of-bounds index), the rendered element is the skeleton
placeholder; no record is dereferenced. -/
theorem C10_renderer_placeholder_on_missing_record
    (images : List ImageRecord) (c : LayoutComponent) (idx : ℚ)
    (hc : c.content = ComponentContent.image idx)
    (hmiss : jsArrayGet images idx = none) :
    renderComponent images c = RenderedComponent.placeholder := by
  by_cases ht : c.type = "image" <;>
    simp [renderComponent, hc, hmiss, hasImageIndex, hasTitle, ht]

/-- Witness for C10: rendering an image component with index 3 against an
empty record list yields the placeholder. -/
theorem C10_witness :
    jsArrayGet [] (3 : ℚ) = none ∧
    renderComponent [] cW10 = RenderedComponent.placeholder :=
  ⟨by decide, C10_renderer_placeholder_on_missing_record [] cW10 3 rfl (by decide)⟩

end Archfolio
